import Mathlib

/-!
Shallow embedding of the vehicle-checklist backend
(`api/server.py` of asphalt-armoury): the checklist aggregate data
model and the Checklist Store operations (create, get, update,
add_item, toggle_item, add_photo) over a document collection.

Modelling conventions:
* `datetime` values are modelled as `Nat`; every call of
  `datetime.utcnow()` in the source becomes an explicit `Nat`
  parameter of the operation (one parameter per call site).
* `uuid.uuid4()` results become explicit `String` parameters.
* The Mongo collection is a `List VehicleChecklist`; `find_one`
  returns the first document whose `id` field matches, `update_one`
  rewrites the first matching document and reports `modified_count`,
  which is `0` exactly when the rewritten document equals the stored
  one (Mongo counts a document as modified only if it actually
  changed).
* A raised `HTTPException` becomes an `ApiError` value; each
  operation returns the collection state next to its
  `Except ApiError` result, so that "the store is unchanged" is
  expressible for the error paths.
-/

namespace Armoury

/-- Embeds the pydantic model `VehicleInfo`: `make`, `model`, `year`
are required strings, the remaining fields are optional strings
(`Option String`; the Python default `""` is `some ""`).
The source field `compressionRatio` does not occur here: it belongs
to `EngineInfo`. -/
structure VehicleInfo where
  make : String
  model : String
  series : Option String
  year : String
  bodyType : Option String
  doors : Option String
  assembly : Option String
  licensing : Option String
  purchaseDate : Option String
  vin : Option String
  buildDate : Option String
  trimCode : Option String
  optionCode : Option String
  odometer : Option String
  paintColor : Option String
  engine : Option String
  transmission : Option String
  drive : Option String
  layout : Option String
  rimSize : Option String
  tyreSize : Option String
  weight : Option String
  wheelbase : Option String
  length : Option String
  height : Option String
  width : Option String
deriving DecidableEq

/-- Embeds the pydantic model `EngineInfo` (8 optional strings).
`compression` stands for the source field `compressionRatio`. -/
structure EngineInfo where
  engineNumber : Option String
  engineCode : Option String
  description : Option String
  bore : Option String
  stroke : Option String
  compression : Option String
  power : Option String
  torque : Option String
deriving DecidableEq

/-- Embeds the pydantic model `ChecklistItem`. -/
structure ChecklistItem where
  id : String
  text : String
  completed : Bool
  completed_at : Option Nat
deriving DecidableEq

/-- Embeds the pydantic model `Photo`. -/
structure Photo where
  id : String
  base64_data : String
  description : Option String
  timestamp : Nat
deriving DecidableEq

/-- Embeds the pydantic model `VehicleChecklist` (the aggregate root
document stored in the collection). -/
structure VehicleChecklist where
  id : String
  title : String
  vehicle_info : VehicleInfo
  engine_info : EngineInfo
  tasks : List ChecklistItem
  parts_to_install : List ChecklistItem
  maintenance : List ChecklistItem
  research_items : List ChecklistItem
  photos : List Photo
  created_at : Nat
  updated_at : Nat
  is_template : Bool
deriving DecidableEq

/-- Embeds `VehicleChecklistCreate`. `is_template` is
`Optional[bool] = False` in the source, so an explicit `null` is
representable (`none`). -/
structure VehicleChecklistCreate where
  title : String
  vehicle_info : VehicleInfo
  engine_info : EngineInfo
  is_template : Option Bool
deriving DecidableEq

/-- Embeds `VehicleChecklistUpdate`: the eight updatable fields, each
optional. `none` stands for "omitted or explicitly null" — the source
builds `update_data.dict()` and drops every `None` entry, so the two
cases are indistinguishable there as well. -/
structure VehicleChecklistUpdate where
  title : Option String
  vehicle_info : Option VehicleInfo
  engine_info : Option EngineInfo
  tasks : Option (List ChecklistItem)
  parts_to_install : Option (List ChecklistItem)
  maintenance : Option (List ChecklistItem)
  research_items : Option (List ChecklistItem)
  photos : Option (List Photo)
deriving DecidableEq

/-- The failure taxonomy of the store: `notFound` (404),
`invalidArgument` (400 invalid section), `persistence` (400
"Failed to ..."), `validation` (a pydantic validation failure while
rebuilding a model, e.g. `is_template=None` fed to a `bool` field). -/
inductive ApiError where
  | notFound
  | invalidArgument
  | persistence
  | validation
deriving DecidableEq

/-- The document collection `db.checklists`. -/
abbrev Store := List VehicleChecklist

/-- Embeds `db.checklists.find_one({"id": cid})`: first document whose `id`
matches. -/
def find_one (s : Store) (cid : String) : Option VehicleChecklist :=
  s.find? (fun c => c.id == cid)

/-- Embeds `db.checklists.update_one({"id": cid}, mod)` where `mod` is the
effect of the `$set`/`$push` document, applied as a function: rewrites
the first matching document and returns the new collection together
with `modified_count` (0 when the rewritten document is identical,
1 otherwise). -/
def update_one (s : Store) (cid : String) (f : VehicleChecklist → VehicleChecklist) :
    Store × Nat :=
  match s with
  | [] => ([], 0)
  | c :: rest =>
    if c.id == cid then
      (f c :: rest, if f c = c then 0 else 1)
    else
      (c :: (update_one rest cid f).1, (update_one rest cid f).2)

/-- The closed set of item-list names (`valid_sections` in the
source). -/
def validSections : List String :=
  ["tasks", "parts_to_install", "maintenance", "research_items"]

/-- Embeds `checklist.get(section, [])` restricted to the four item lists
(the source only reads a section after validating it). -/
def getSection (c : VehicleChecklist) (sec : String) : List ChecklistItem :=
  if sec = "tasks" then c.tasks
  else if sec = "parts_to_install" then c.parts_to_install
  else if sec = "maintenance" then c.maintenance
  else if sec = "research_items" then c.research_items
  else []

/-- Embeds `$set {section: l}`: replace the named item list wholesale. -/
def setSection (sec : String) (l : List ChecklistItem) (c : VehicleChecklist) :
    VehicleChecklist :=
  if sec = "tasks" then { c with tasks := l }
  else if sec = "parts_to_install" then { c with parts_to_install := l }
  else if sec = "maintenance" then { c with maintenance := l }
  else if sec = "research_items" then { c with research_items := l }
  else c

/-- Embeds `$push {section: it}`: append one item to the named list. -/
def pushSection (sec : String) (it : ChecklistItem) (c : VehicleChecklist) :
    VehicleChecklist :=
  setSection sec (getSection c sec ++ [it]) c

/-- Embeds `$set {"updated_at": now}`. -/
def setUpdatedAt (now : Nat) (c : VehicleChecklist) : VehicleChecklist :=
  { c with updated_at := now }

/-- The `$set` document built by `update_checklist`: every non-`None`
payload field replaces the stored field wholesale, plus a fresh
`updated_at`. -/
def applySet (u : VehicleChecklistUpdate) (now : Nat) (c : VehicleChecklist) :
    VehicleChecklist :=
  { c with
    title := u.title.getD c.title
    vehicle_info := u.vehicle_info.getD c.vehicle_info
    engine_info := u.engine_info.getD c.engine_info
    tasks := u.tasks.getD c.tasks
    parts_to_install := u.parts_to_install.getD c.parts_to_install
    maintenance := u.maintenance.getD c.maintenance
    research_items := u.research_items.getD c.research_items
    photos := u.photos.getD c.photos
    updated_at := now }

/-- Embeds `POST /checklists` (`create_checklist`). `freshId`, `now` are the
generated `uuid4` and the two `utcnow()` defaults (`created_at` and
`updated_at` are produced by the same model construction).
`is_template = none` (explicit null) fails pydantic validation when
`VehicleChecklist(**dict)` is rebuilt over a non-optional `bool`. -/
def create_checklist (s : Store) (d : VehicleChecklistCreate)
    (freshId : String) (now : Nat) : Store × Except ApiError VehicleChecklist :=
  match d.is_template with
  | none => (s, Except.error ApiError.validation)
  | some b =>
    let c : VehicleChecklist :=
      { id := freshId
        title := d.title
        vehicle_info := d.vehicle_info
        engine_info := d.engine_info
        tasks := []
        parts_to_install := []
        maintenance := []
        research_items := []
        photos := []
        created_at := now
        updated_at := now
        is_template := b }
    (s ++ [c], Except.ok c)

/-- Embeds `GET /checklists/{id}` (`get_checklist`). -/
def get_checklist (s : Store) (cid : String) : Except ApiError VehicleChecklist :=
  match find_one s cid with
  | none => Except.error ApiError.notFound
  | some c => Except.ok c

/-- Embeds `PUT /checklists/{id}` (`update_checklist`): look up the document,
`$set` the non-null payload fields plus a fresh `updated_at`, fail if
`modified_count == 0`, then re-read and return the document. -/
def update_checklist (s : Store) (cid : String) (u : VehicleChecklistUpdate)
    (now : Nat) : Store × Except ApiError VehicleChecklist :=
  match find_one s cid with
  | none => (s, Except.error ApiError.notFound)
  | some _ =>
    let p := update_one s cid (applySet u now)
    if p.2 = 0 then (p.1, Except.error ApiError.persistence)
    else
      match find_one p.1 cid with
      | none => (p.1, Except.error ApiError.notFound)
      | some c2 => (p.1, Except.ok c2)

/-- Embeds `POST /checklists/{id}/items/{section}` (`add_checklist_item`):
validate the section, look up the document, `$push` a fresh item and
`$set updated_at`. -/
def add_checklist_item (s : Store) (cid sec itemText : String)
    (freshId : String) (now : Nat) : Store × Except ApiError ChecklistItem :=
  if sec ∈ validSections then
    match find_one s cid with
    | none => (s, Except.error ApiError.notFound)
    | some _ =>
      let newItem : ChecklistItem :=
        { id := freshId, text := itemText, completed := false, completed_at := none }
      let p := update_one s cid (fun c => setUpdatedAt now (pushSection sec newItem c))
      if p.2 = 0 then (p.1, Except.error ApiError.persistence)
      else (p.1, Except.ok newItem)
  else (s, Except.error ApiError.invalidArgument)

/-- The in-place mutation of the matching item inside the toggle loop:
`completed` is negated, then `completed_at` is set to `utcnow()` when
the new `completed` is true, cleared otherwise. -/
def flipItem (now : Nat) (it : ChecklistItem) : ChecklistItem :=
  { it with
    completed := !it.completed
    completed_at := if !it.completed then some now else none }

/-- The `for item in items: if item["id"] == item_id: ... break` loop:
rewrite the first item whose id matches; `none` when no item matches
("Item not found"). -/
def toggleFirst (itemId : String) (now : Nat) :
    List ChecklistItem → Option (List ChecklistItem)
  | [] => none
  | it :: rest =>
    if it.id == itemId then some (flipItem now it :: rest)
    else (toggleFirst itemId now rest).map (fun l => it :: l)

/-- Embeds `PUT /checklists/{id}/items/{section}/{item_id}/toggle`
(`toggle_checklist_item`): validate the section, load the document,
rewrite the first matching item of the named list, write the whole
list back together with a fresh `updated_at`. `nowItem` is the
`utcnow()` stored in `completed_at`, `nowDoc` the later `utcnow()`
stored in `updated_at`. -/
def toggle_checklist_item (s : Store) (cid sec itemId : String)
    (nowItem nowDoc : Nat) : Store × Except ApiError Unit :=
  if sec ∈ validSections then
    match find_one s cid with
    | none => (s, Except.error ApiError.notFound)
    | some c =>
      match toggleFirst itemId nowItem (getSection c sec) with
      | none => (s, Except.error ApiError.notFound)
      | some items =>
        let p := update_one s cid (fun c2 => setUpdatedAt nowDoc (setSection sec items c2))
        if p.2 = 0 then (p.1, Except.error ApiError.persistence)
        else (p.1, Except.ok ())
  else (s, Except.error ApiError.invalidArgument)

/-- Embeds `POST /checklists/{id}/photos` (`add_photo`): look up the
document, `$push` the given photo and `$set updated_at`. -/
def add_photo (s : Store) (cid : String) (photo : Photo) (now : Nat) :
    Store × Except ApiError Photo :=
  match find_one s cid with
  | none => (s, Except.error ApiError.notFound)
  | some _ =>
    let p := update_one s cid
      (fun c => setUpdatedAt now { c with photos := c.photos ++ [photo] })
    if p.2 = 0 then (p.1, Except.error ApiError.persistence)
    else (p.1, Except.ok photo)

/-! ### Spec-level predicates -/

/-- The item invariant of the spec: `completed_at` is non-null iff
`completed` is true. -/
abbrev itemOk (it : ChecklistItem) : Prop :=
  it.completed_at.isSome = it.completed

/-- All items of a list satisfy the item invariant. -/
abbrev itemsOk (l : List ChecklistItem) : Prop :=
  ∀ it ∈ l, itemOk it

/-- Every item of all four item lists of a checklist satisfies the
item invariant. -/
abbrev checklistOk (c : VehicleChecklist) : Prop :=
  itemsOk c.tasks ∧ itemsOk c.parts_to_install ∧
    itemsOk c.maintenance ∧ itemsOk c.research_items

/-- Every stored checklist satisfies the item invariant. -/
abbrev storeOk (s : Store) : Prop :=
  ∀ c ∈ s, checklistOk c

/-- Every item supplied inside the update payload's list fields
satisfies the item invariant. -/
abbrev updateOk (u : VehicleChecklistUpdate) : Prop :=
  itemsOk (u.tasks.getD []) ∧ itemsOk (u.parts_to_install.getD []) ∧
    itemsOk (u.maintenance.getD []) ∧ itemsOk (u.research_items.getD [])

/-- Look up an item by id inside a named section of a stored
checklist (the composite read used to observe toggles). -/
def findItem (s : Store) (cid sec itemId : String) : Option ChecklistItem :=
  match find_one s cid with
  | none => none
  | some c => (getSection c sec).find? (fun it => it.id == itemId)

/-! ### Store-level lemmas -/

theorem find_one_mem {s : Store} {cid : String} {c : VehicleChecklist}
    (h : find_one s cid = some c) : c ∈ s :=
  List.mem_of_find?_eq_some h

theorem find_one_id {s : Store} {cid : String} {c : VehicleChecklist}
    (h : find_one s cid = some c) : c.id = cid := by
  have := List.find?_some h
  simpa using this

/-- Rewriting the first matching document commutes with reading it
back, provided the rewrite keeps the `id` field. -/
theorem find_one_update_one (f : VehicleChecklist → VehicleChecklist)
    (hf : ∀ c, (f c).id = c.id) (s : Store) (cid : String) :
    find_one (update_one s cid f).1 cid = (find_one s cid).map f := by
  induction s with
  | nil => rfl
  | cons c rest ih =>
    by_cases h : c.id = cid
    · simp [find_one, update_one, List.find?, h, hf]
    · have hb : (c.id == cid) = false := by simpa using h
      simpa [find_one, update_one, List.find?, hb] using ih

theorem update_one_count {s : Store} {cid : String} {c : VehicleChecklist}
    (f : VehicleChecklist → VehicleChecklist) (h : find_one s cid = some c) :
    (update_one s cid f).2 = if f c = c then 0 else 1 := by
  induction s with
  | nil => simp [find_one] at h
  | cons c0 rest ih =>
    by_cases hc : c0.id = cid
    · have : c0 = c := by
        simp [find_one, List.find?, hc] at h
        exact h
      subst this
      simp [update_one, hc]
    · have hb : (c0.id == cid) = false := by simpa using hc
      simp only [find_one, List.find?, hb] at h
      simp only [update_one, hb, if_false]
      exact ih h

/-- A rewrite that preserves a predicate on documents preserves it
across the whole collection. -/
theorem update_one_preserves (P : VehicleChecklist → Prop)
    (f : VehicleChecklist → VehicleChecklist) (hf : ∀ c, P c → P (f c))
    (s : Store) (cid : String) (hs : ∀ c ∈ s, P c) :
    ∀ c ∈ (update_one s cid f).1, P c := by
  induction s with
  | nil => simp [update_one] at *
  | cons c0 rest ih =>
    intro c hc
    cases hb : c0.id == cid with
    | true =>
      simp [update_one, hb] at hc
      rcases hc with rfl | hc
      · exact hf c0 (hs c0 (List.mem_cons_self c0 rest))
      · exact hs c (List.mem_cons_of_mem _ hc)
    | false =>
      simp [update_one, hb] at hc
      rcases hc with rfl | hc
      · exact hs c (List.mem_cons_self c rest)
      · exact ih (fun x hx => hs x (List.mem_cons_of_mem _ hx)) c hc

/-! ### Section and toggle lemmas -/

theorem applySet_id (u : VehicleChecklistUpdate) (n : Nat) (c : VehicleChecklist) :
    (applySet u n c).id = c.id := rfl

theorem setSection_id (sec : String) (l : List ChecklistItem) (c : VehicleChecklist) :
    (setSection sec l c).id = c.id := by
  unfold setSection
  split_ifs <;> rfl

theorem setUpdatedAt_id (n : Nat) (c : VehicleChecklist) :
    (setUpdatedAt n c).id = c.id := rfl

theorem pushSection_id (sec : String) (it : ChecklistItem) (c : VehicleChecklist) :
    (pushSection sec it c).id = c.id := setSection_id _ _ _

theorem getSection_setUpdatedAt (n : Nat) (c : VehicleChecklist) (sec : String) :
    getSection (setUpdatedAt n c) sec = getSection c sec := by
  unfold getSection setUpdatedAt
  split_ifs <;> rfl

theorem getSection_setSection_self (sec : String) (hsec : sec ∈ validSections)
    (l : List ChecklistItem) (c : VehicleChecklist) :
    getSection (setSection sec l c) sec = l := by
  simp only [validSections, List.mem_cons, List.mem_singleton, List.not_mem_nil] at hsec
  rcases hsec with rfl | rfl | rfl | rfl | h
  · rfl
  · rfl
  · rfl
  · rfl
  · exact absurd h (by simp)

theorem flipItem_id (n : Nat) (it : ChecklistItem) : (flipItem n it).id = it.id := rfl

theorem itemOk_flipItem (n : Nat) (it : ChecklistItem) : itemOk (flipItem n it) := by
  cases h : it.completed <;> simp [itemOk, flipItem, h]

/-- The toggle loop rewrites exactly the first matching item. -/
theorem toggleFirst_find? (itemId : String) (n : Nat) :
    ∀ (l l' : List ChecklistItem) (it : ChecklistItem),
      l.find? (fun x => x.id == itemId) = some it →
      toggleFirst itemId n l = some l' →
      l'.find? (fun x => x.id == itemId) = some (flipItem n it) := by
  intro l
  induction l with
  | nil => intro l' it h; simp [List.find?] at h
  | cons a rest ih =>
    intro l' it hfind htog
    cases hb : a.id == itemId with
    | true =>
      simp [List.find?, hb] at hfind
      simp [toggleFirst, hb] at htog
      subst hfind
      subst htog
      have hid : ((flipItem n a).id == itemId) = true := by
        rw [flipItem_id]; exact hb
      simp [List.find?, hid]
    | false =>
      simp only [List.find?, hb] at hfind
      simp only [toggleFirst, hb] at htog
      cases hrec : toggleFirst itemId n rest with
      | none => rw [hrec] at htog; simp at htog
      | some rest' =>
        rw [hrec] at htog
        simp at htog
        subst htog
        simp only [List.find?, hb]
        exact ih rest' it hfind hrec

/-- The toggle loop leaves every item satisfying the
`completed`/`completed_at` invariant (the rewritten item satisfies it
unconditionally, the rest are untouched). -/
theorem toggleFirst_ok (itemId : String) (n : Nat) :
    ∀ (l l' : List ChecklistItem), itemsOk l →
      toggleFirst itemId n l = some l' → itemsOk l' := by
  intro l
  induction l with
  | nil => intro l' _ h; simp [toggleFirst] at h
  | cons a rest ih =>
    intro l' hok htog
    cases hb : a.id == itemId with
    | true =>
      simp [toggleFirst, hb] at htog
      subst htog
      intro it hit
      rcases List.mem_cons.mp hit with rfl | hmem
      · exact itemOk_flipItem n a
      · exact hok it (List.mem_cons_of_mem _ hmem)
    | false =>
      simp only [toggleFirst, hb] at htog
      cases hrec : toggleFirst itemId n rest with
      | none => rw [hrec] at htog; simp at htog
      | some rest' =>
        rw [hrec] at htog
        simp at htog
        subst htog
        intro it hit
        rcases List.mem_cons.mp hit with rfl | hmem
        · exact hok it (List.mem_cons_self _ _)
        · exact ih rest' (fun x hx => hok x (List.mem_cons_of_mem _ hx)) hrec it hmem

theorem itemsOk_append {l1 l2 : List ChecklistItem} (h1 : itemsOk l1)
    (h2 : itemsOk l2) : itemsOk (l1 ++ l2) := by
  intro it hit
  rcases List.mem_append.mp hit with h | h
  · exact h1 it h
  · exact h2 it h

theorem getSection_ok {c : VehicleChecklist} (h : checklistOk c) (sec : String) :
    itemsOk (getSection c sec) := by
  unfold getSection
  split_ifs
  · exact h.1
  · exact h.2.1
  · exact h.2.2.1
  · exact h.2.2.2
  · intro it hit
    simp at hit

theorem checklistOk_setSection {c : VehicleChecklist} {l : List ChecklistItem}
    (hl : itemsOk l) (hc : checklistOk c) (sec : String) :
    checklistOk (setSection sec l c) := by
  unfold setSection
  split_ifs
  · exact ⟨hl, hc.2.1, hc.2.2.1, hc.2.2.2⟩
  · exact ⟨hc.1, hl, hc.2.2.1, hc.2.2.2⟩
  · exact ⟨hc.1, hc.2.1, hl, hc.2.2.2⟩
  · exact ⟨hc.1, hc.2.1, hc.2.2.1, hl⟩
  · exact hc

theorem checklistOk_setUpdatedAt {c : VehicleChecklist} (hc : checklistOk c)
    (n : Nat) : checklistOk (setUpdatedAt n c) := hc

theorem checklistOk_applySet {c : VehicleChecklist} {u : VehicleChecklistUpdate}
    (hu : updateOk u) (hc : checklistOk c) (n : Nat) :
    checklistOk (applySet u n c) := by
  refine ⟨?_, ?_, ?_, ?_⟩
  · cases h : u.tasks with
    | none => simpa [applySet, h] using hc.1
    | some l => simpa [applySet, h] using (by simpa [h] using hu.1 : itemsOk l)
  · cases h : u.parts_to_install with
    | none => simpa [applySet, h] using hc.2.1
    | some l => simpa [applySet, h] using (by simpa [h] using hu.2.1 : itemsOk l)
  · cases h : u.maintenance with
    | none => simpa [applySet, h] using hc.2.2.1
    | some l => simpa [applySet, h] using (by simpa [h] using hu.2.2.1 : itemsOk l)
  · cases h : u.research_items with
    | none => simpa [applySet, h] using hc.2.2.2
    | some l => simpa [applySet, h] using (by simpa [h] using hu.2.2.2 : itemsOk l)

/-! ### Inversion lemmas for successful operations -/

theorem update_checklist_ok_inv {s : Store} {cid : String}
    {u : VehicleChecklistUpdate} {n : Nat} {s' : Store} {c' : VehicleChecklist}
    (h : update_checklist s cid u n = (s', Except.ok c')) :
    ∃ c, find_one s cid = some c ∧ c' = applySet u n c ∧
      s' = (update_one s cid (applySet u n)).1 := by
  cases hf : find_one s cid with
  | none => simp [update_checklist, hf] at h
  | some c =>
    simp only [update_checklist, hf] at h
    by_cases hz : (update_one s cid (applySet u n)).2 = 0
    · rw [if_pos hz] at h
      simp at h
    · rw [if_neg hz] at h
      have hrd : find_one (update_one s cid (applySet u n)).1 cid
          = some (applySet u n c) := by
        rw [find_one_update_one (applySet u n) (fun x => rfl) s cid, hf]
        rfl
      simp [hrd] at h
      exact ⟨c, rfl, h.2.symm, h.1.symm⟩

theorem add_item_inv {s : Store} {cid sec text fid : String} {n : Nat}
    {s' : Store} {r : ChecklistItem}
    (h : add_checklist_item s cid sec text fid n = (s', Except.ok r)) :
    sec ∈ validSections ∧ r = ⟨fid, text, false, none⟩ ∧
      ∃ c, find_one s cid = some c ∧
        s' = (update_one s cid
          (fun c2 => setUpdatedAt n (pushSection sec ⟨fid, text, false, none⟩ c2))).1 := by
  by_cases hsec : sec ∈ validSections
  · simp only [add_checklist_item, if_pos hsec] at h
    cases hf : find_one s cid with
    | none => simp [hf] at h
    | some c =>
      simp only [hf] at h
      by_cases hz : (update_one s cid
          (fun c2 => setUpdatedAt n (pushSection sec ⟨fid, text, false, none⟩ c2))).2 = 0
      · rw [if_pos hz] at h
        simp at h
      · rw [if_neg hz] at h
        simp at h
        exact ⟨hsec, h.2.symm, c, rfl, h.1.symm⟩
  · simp [add_checklist_item, hsec] at h

theorem toggle_inv {s : Store} {cid sec itemId : String} {nI nD : Nat} {s' : Store}
    (h : toggle_checklist_item s cid sec itemId nI nD = (s', Except.ok ())) :
    sec ∈ validSections ∧ ∃ c items, find_one s cid = some c ∧
      toggleFirst itemId nI (getSection c sec) = some items ∧
      s' = (update_one s cid
        (fun c2 => setUpdatedAt nD (setSection sec items c2))).1 := by
  by_cases hsec : sec ∈ validSections
  · simp only [toggle_checklist_item, if_pos hsec] at h
    cases hf : find_one s cid with
    | none => simp [hf] at h
    | some c =>
      simp only [hf] at h
      cases ht : toggleFirst itemId nI (getSection c sec) with
      | none => simp [ht] at h
      | some items =>
        simp only [ht] at h
        by_cases hz : (update_one s cid
            (fun c2 => setUpdatedAt nD (setSection sec items c2))).2 = 0
        · rw [if_pos hz] at h
          simp at h
        · rw [if_neg hz] at h
          simp at h
          exact ⟨hsec, c, items, rfl, ht, h.symm⟩
  · simp [toggle_checklist_item, hsec] at h

theorem add_photo_inv {s : Store} {cid : String} {photo : Photo} {n : Nat}
    {s' : Store} {r : Photo}
    (h : add_photo s cid photo n = (s', Except.ok r)) :
    r = photo ∧ ∃ c, find_one s cid = some c ∧
      s' = (update_one s cid
        (fun c2 => setUpdatedAt n { c2 with photos := c2.photos ++ [photo] })).1 := by
  cases hf : find_one s cid with
  | none => simp [add_photo, hf] at h
  | some c =>
    simp only [add_photo, hf] at h
    by_cases hz : (update_one s cid
        (fun c2 => setUpdatedAt n { c2 with photos := c2.photos ++ [photo] })).2 = 0
    · rw [if_pos hz] at h
      simp at h
    · rw [if_neg hz] at h
      simp at h
      exact ⟨h.2.symm, c, rfl, h.1.symm⟩

/-! ### Concrete sample data (used by counterexamples and witnesses) -/

def sampleVehicle : VehicleInfo :=
  { make := "Ford", model := "Mustang", series := none, year := "1970"
    bodyType := none, doors := none, assembly := none, licensing := none
    purchaseDate := none, vin := none, buildDate := none, trimCode := none
    optionCode := none, odometer := none, paintColor := none, engine := none
    transmission := none, drive := none, layout := none, rimSize := none
    tyreSize := none, weight := none, wheelbase := none, length := none
    height := none, width := none }

def sampleEngine : EngineInfo :=
  { engineNumber := none, engineCode := none, description := none
    bore := none, stroke := none, compression := none, power := none
    torque := none }

/-- A completed item that satisfies the invariant. -/
def doneItem : ChecklistItem :=
  { id := "i1", text := "Replace timing chain", completed := true
    completed_at := some 5 }

def sampleChecklist : VehicleChecklist :=
  { id := "cl-1", title := "1970 Mustang", vehicle_info := sampleVehicle
    engine_info := sampleEngine, tasks := [doneItem], parts_to_install := []
    maintenance := [], research_items := [], photos := [], created_at := 1
    updated_at := 1, is_template := false }

def sampleStore : Store := [sampleChecklist]

def sampleCreate : VehicleChecklistCreate :=
  { title := "1970 Mustang", vehicle_info := sampleVehicle
    engine_info := sampleEngine, is_template := some false }

def samplePhoto : Photo :=
  { id := "p1", base64_data := "QUJD", description := some "front quarter"
    timestamp := 2 }

def emptyUpdate : VehicleChecklistUpdate :=
  { title := none, vehicle_info := none, engine_info := none, tasks := none
    parts_to_install := none, maintenance := none, research_items := none
    photos := none }

/-- A payload item violating the invariant: `completed` true with
`completed_at` null — accepted as-is by the update operation. -/
def badItem : ChecklistItem :=
  { id := "i2", text := "completed but no timestamp", completed := true
    completed_at := none }

def badUpdate : VehicleChecklistUpdate :=
  { emptyUpdate with tasks := some [badItem] }

/-! ### C1 -/

/-- C1 — counterexample: the claim that after every operation every
stored item satisfies "`completed_at` non-null iff `completed`",
*including items supplied inside an update payload*, is false: an
update whose `tasks` payload contains an item with `completed = true`
and `completed_at = null` succeeds and stores that item unchanged, so
the invariant is violated in the resulting store. -/
theorem C1_counterexample :
    (update_checklist sampleStore "cl-1" badUpdate 7).2
        = Except.ok (applySet badUpdate 7 sampleChecklist) ∧
      ¬ storeOk (update_checklist sampleStore "cl-1" badUpdate 7).1 := by
  constructor
  · rfl
  · decide

theorem checklistOk_pushSection {c : VehicleChecklist} (hc : checklistOk c)
    {it : ChecklistItem} (hit : itemOk it) (sec : String) :
    checklistOk (pushSection sec it c) := by
  refine checklistOk_setSection ?_ hc sec
  refine itemsOk_append (getSection_ok hc sec) ?_
  intro x hx
  rcases List.mem_singleton.mp hx with rfl
  exact hit

/-- C1 (amended): the operations of the Checklist Store preserve the
invariant "`completed_at` is non-null iff `completed` is true" for
every item of every stored checklist — *provided* every item supplied
inside an update payload satisfies the invariant itself (the code
performs no validation of payload items, so the unrestricted claim
fails, see the counterexample). -/
theorem C1_invariant_preserved
    (s : Store) (hs : storeOk s)
    (d : VehicleChecklistCreate) (u : VehicleChecklistUpdate) (hu : updateOk u)
    (cid sec text itemId fidC fidI : String) (ph : Photo)
    (n1 n2 n3 n4 n5 n6 : Nat) :
    storeOk (create_checklist s d fidC n1).1 ∧
    storeOk (update_checklist s cid u n2).1 ∧
    storeOk (add_checklist_item s cid sec text fidI n3).1 ∧
    storeOk (toggle_checklist_item s cid sec itemId n4 n5).1 ∧
    storeOk (add_photo s cid ph n6).1 := by
  refine ⟨?_, ?_, ?_, ?_, ?_⟩
  · cases hd : d.is_template with
    | none => simpa [create_checklist, hd] using hs
    | some b =>
      intro c hc
      simp [create_checklist, hd] at hc
      rcases hc with hc | rfl
      · exact hs c hc
      · refine ⟨?_, ?_, ?_, ?_⟩ <;> intro it hit <;> simp at hit
  · cases hf : find_one s cid with
    | none => simpa [update_checklist, hf] using hs
    | some c0 =>
      have hpres := update_one_preserves checklistOk (applySet u n2)
        (fun c hc => checklistOk_applySet hu hc n2) s cid hs
      simp only [update_checklist, hf]
      by_cases hz : (update_one s cid (applySet u n2)).2 = 0
      · rw [if_pos hz]; exact hpres
      · rw [if_neg hz]
        cases find_one (update_one s cid (applySet u n2)).1 cid with
        | none => exact hpres
        | some c2 => exact hpres
  · by_cases hsec : sec ∈ validSections
    · cases hf : find_one s cid with
      | none => simpa [add_checklist_item, hsec, hf] using hs
      | some c0 =>
        have hpres := update_one_preserves checklistOk
          (fun c2 => setUpdatedAt n3
            (pushSection sec ⟨fidI, text, false, none⟩ c2))
          (fun c hc => checklistOk_setUpdatedAt
            (checklistOk_pushSection hc rfl sec) n3) s cid hs
        simp only [add_checklist_item, if_pos hsec, hf]
        by_cases hz : (update_one s cid
            (fun c2 => setUpdatedAt n3
              (pushSection sec ⟨fidI, text, false, none⟩ c2))).2 = 0
        · rw [if_pos hz]; exact hpres
        · rw [if_neg hz]; exact hpres
    · simpa [add_checklist_item, hsec] using hs
  · by_cases hsec : sec ∈ validSections
    · cases hf : find_one s cid with
      | none => simpa [toggle_checklist_item, hsec, hf] using hs
      | some c0 =>
        cases ht : toggleFirst itemId n4 (getSection c0 sec) with
        | none => simpa [toggle_checklist_item, hsec, hf, ht] using hs
        | some items =>
          have hc0 : checklistOk c0 := hs c0 (find_one_mem hf)
          have hitems : itemsOk items :=
            toggleFirst_ok itemId n4 _ items (getSection_ok hc0 sec) ht
          have hpres := update_one_preserves checklistOk
            (fun c2 => setUpdatedAt n5 (setSection sec items c2))
            (fun c hc => checklistOk_setUpdatedAt
              (checklistOk_setSection hitems hc sec) n5) s cid hs
          simp only [toggle_checklist_item, if_pos hsec, hf, ht]
          by_cases hz : (update_one s cid
              (fun c2 => setUpdatedAt n5 (setSection sec items c2))).2 = 0
          · rw [if_pos hz]; exact hpres
          · rw [if_neg hz]; exact hpres
    · simpa [toggle_checklist_item, hsec] using hs
  · cases hf : find_one s cid with
    | none => simpa [add_photo, hf] using hs
    | some c0 =>
      have hpres := update_one_preserves checklistOk
        (fun c2 => setUpdatedAt n6 { c2 with photos := c2.photos ++ [ph] })
        (fun c hc => hc) s cid hs
      simp only [add_photo, hf]
      by_cases hz : (update_one s cid
          (fun c2 => setUpdatedAt n6 { c2 with photos := c2.photos ++ [ph] })).2 = 0
      · rw [if_pos hz]; exact hpres
      · rw [if_neg hz]; exact hpres

/-- C1 (amended) — witness: the hypotheses are satisfied by the
sample store and an invariant-respecting payload, and the amended
theorem applies. -/
theorem C1_invariant_preserved_witness :
    storeOk sampleStore ∧ updateOk emptyUpdate ∧
      (storeOk (create_checklist sampleStore sampleCreate "cl-9" 3).1 ∧
       storeOk (update_checklist sampleStore "cl-1" emptyUpdate 4).1 ∧
       storeOk (add_checklist_item sampleStore "cl-1" "tasks" "New task" "i9" 5).1 ∧
       storeOk (toggle_checklist_item sampleStore "cl-1" "tasks" "i1" 6 7).1 ∧
       storeOk (add_photo sampleStore "cl-1" samplePhoto 8).1) :=
  ⟨by decide, by decide,
    C1_invariant_preserved sampleStore (by decide) sampleCreate emptyUpdate
      (by decide) "cl-1" "tasks" "New task" "i1" "cl-9" "i9" samplePhoto 3 4 5 6 7 8⟩

/-! ### C2 -/

/-- An uncompleted item satisfying the invariant. -/
def openItem : ChecklistItem :=
  { id := "i3", text := "Install carpet", completed := false
    completed_at := none }

def C2store : Store := [{ sampleChecklist with tasks := [openItem] }]

/-- C2 — counterexample: toggling twice does *not* always restore
`completed_at`. Starting from an item with `completed = true`,
`completed_at = some 5`, two successful toggles (item-timestamps 10
and 12) leave `completed = true` but `completed_at = some 12 ≠ some 5`:
the second toggle stamps a fresh time instead of the original one. -/
theorem C2_counterexample :
    (toggle_checklist_item sampleStore "cl-1" "tasks" "i1" 10 11).2
        = Except.ok () ∧
      (toggle_checklist_item
          (toggle_checklist_item sampleStore "cl-1" "tasks" "i1" 10 11).1
          "cl-1" "tasks" "i1" 12 13).2 = Except.ok () ∧
      findItem sampleStore "cl-1" "tasks" "i1" = some doneItem ∧
      findItem (toggle_checklist_item
          (toggle_checklist_item sampleStore "cl-1" "tasks" "i1" 10 11).1
          "cl-1" "tasks" "i1" 12 13).1 "cl-1" "tasks" "i1"
        = some { doneItem with completed_at := some 12 } ∧
      ({ doneItem with completed_at := some 12 } : ChecklistItem) ≠ doneItem := by
  refine ⟨rfl, rfl, rfl, rfl, by decide⟩

/-- A successful toggle rewrites exactly the addressed item, to its
flipped value. -/
theorem toggle_findItem {s : Store} {cid sec itemId : String} {tA tB : Nat}
    {s' : Store} {it : ChecklistItem}
    (h : toggle_checklist_item s cid sec itemId tA tB = (s', Except.ok ()))
    (hit : findItem s cid sec itemId = some it) :
    findItem s' cid sec itemId = some (flipItem tA it) := by
  obtain ⟨hsec, c, items, hf, ht, hs'⟩ := toggle_inv h
  have hfind : (getSection c sec).find? (fun x => x.id == itemId) = some it := by
    simpa [findItem, hf] using hit
  have hrd : find_one s' cid = some (setUpdatedAt tB (setSection sec items c)) := by
    rw [hs', find_one_update_one _
      (fun x => by rw [setUpdatedAt_id, setSection_id]) s cid, hf]
    rfl
  have hsecEq : getSection (setUpdatedAt tB (setSection sec items c)) sec = items := by
    rw [getSection_setUpdatedAt, getSection_setSection_self sec hsec]
  simp only [findItem, hrd, hsecEq]
  exact toggleFirst_find? itemId tA _ items it hfind ht

/-- C2 (amended): applying `toggle_item` twice in succession always
restores the `completed` flag, and restores the item exactly
(including `completed_at`) whenever the item was uncompleted with
null `completed_at` before the first toggle. (For an
initially-completed item the second toggle writes a fresh timestamp,
so `completed_at` is not restored in general — see the
counterexample.) -/
theorem C2_double_toggle (s : Store) (cid sec itemId : String)
    (t1 t1' t2 t2' : Nat) (s1 s2 : Store) (it : ChecklistItem)
    (h0 : findItem s cid sec itemId = some it)
    (h1 : toggle_checklist_item s cid sec itemId t1 t1' = (s1, Except.ok ()))
    (h2 : toggle_checklist_item s1 cid sec itemId t2 t2' = (s2, Except.ok ())) :
    findItem s2 cid sec itemId = some (flipItem t2 (flipItem t1 it)) ∧
      (flipItem t2 (flipItem t1 it)).completed = it.completed ∧
      (it.completed = false → it.completed_at = none →
        flipItem t2 (flipItem t1 it) = it) := by
  have hA := toggle_findItem h1 h0
  have hB := toggle_findItem h2 hA
  refine ⟨hB, by simp [flipItem], ?_⟩
  intro hcomp hat
  obtain ⟨iid, txt, cmp, cat⟩ := it
  simp only at hcomp hat
  subst hcomp
  subst hat
  simp [flipItem]

/-- C2 (amended) — witness: a concrete double toggle of an initially
uncompleted item; the conclusion instances include the exact
restoration of the item. -/
theorem C2_double_toggle_witness :
    findItem C2store "cl-1" "tasks" "i3" = some openItem ∧
      (findItem (toggle_checklist_item
            (toggle_checklist_item C2store "cl-1" "tasks" "i3" 10 11).1
            "cl-1" "tasks" "i3" 12 13).1 "cl-1" "tasks" "i3"
          = some (flipItem 12 (flipItem 10 openItem)) ∧
        (flipItem 12 (flipItem 10 openItem)).completed = openItem.completed ∧
        (openItem.completed = false → openItem.completed_at = none →
          flipItem 12 (flipItem 10 openItem) = openItem)) :=
  ⟨rfl,
    C2_double_toggle C2store "cl-1" "tasks" "i3" 10 11 12 13
      (toggle_checklist_item C2store "cl-1" "tasks" "i3" 10 11).1
      (toggle_checklist_item
        (toggle_checklist_item C2store "cl-1" "tasks" "i3" 10 11).1
        "cl-1" "tasks" "i3" 12 13).1
      openItem rfl rfl rfl⟩

/-! ### C3 -/

/-- C3: on a successful update of an existing checklist, each of the
eight updatable fields that is present (non-null) in the payload
fully replaces the stored field, and each omitted/null field keeps
its prior stored value — all captured by `Option.getD`. -/
theorem C3_partial_update_replaces
    (s : Store) (cid : String) (u : VehicleChecklistUpdate) (n : Nat)
    (c : VehicleChecklist) (s' : Store) (c' : VehicleChecklist)
    (hc : find_one s cid = some c)
    (h : update_checklist s cid u n = (s', Except.ok c')) :
    c'.title = u.title.getD c.title ∧
      c'.vehicle_info = u.vehicle_info.getD c.vehicle_info ∧
      c'.engine_info = u.engine_info.getD c.engine_info ∧
      c'.tasks = u.tasks.getD c.tasks ∧
      c'.parts_to_install = u.parts_to_install.getD c.parts_to_install ∧
      c'.maintenance = u.maintenance.getD c.maintenance ∧
      c'.research_items = u.research_items.getD c.research_items ∧
      c'.photos = u.photos.getD c.photos := by
  obtain ⟨c0, hf0, hcc, _⟩ := update_checklist_ok_inv h
  rw [hf0] at hc
  obtain rfl : c0 = c := Option.some.inj hc
  subst hcc
  exact ⟨rfl, rfl, rfl, rfl, rfl, rfl, rfl, rfl⟩

/-- A payload replacing two fields and omitting the rest. -/
def C3u : VehicleChecklistUpdate :=
  { emptyUpdate with title := some "New title", tasks := some [openItem] }

/-- C3 — witness: the replacement/retention equations at a concrete
store, payload and result. -/
theorem C3_witness :
    (applySet C3u 9 sampleChecklist).title = C3u.title.getD sampleChecklist.title ∧
      (applySet C3u 9 sampleChecklist).vehicle_info
        = C3u.vehicle_info.getD sampleChecklist.vehicle_info ∧
      (applySet C3u 9 sampleChecklist).engine_info
        = C3u.engine_info.getD sampleChecklist.engine_info ∧
      (applySet C3u 9 sampleChecklist).tasks = C3u.tasks.getD sampleChecklist.tasks ∧
      (applySet C3u 9 sampleChecklist).parts_to_install
        = C3u.parts_to_install.getD sampleChecklist.parts_to_install ∧
      (applySet C3u 9 sampleChecklist).maintenance
        = C3u.maintenance.getD sampleChecklist.maintenance ∧
      (applySet C3u 9 sampleChecklist).research_items
        = C3u.research_items.getD sampleChecklist.research_items ∧
      (applySet C3u 9 sampleChecklist).photos = C3u.photos.getD sampleChecklist.photos :=
  C3_partial_update_replaces sampleStore "cl-1" C3u 9 sampleChecklist
    (update_checklist sampleStore "cl-1" C3u 9).1
    (applySet C3u 9 sampleChecklist) rfl rfl

/-! ### C9 -/

/-- C9: a successful update never changes `id`, `created_at` or
`is_template` — the update request type has no such fields and the
`$set` document never names them. -/
theorem C9_update_immutable_fields
    (s : Store) (cid : String) (u : VehicleChecklistUpdate) (n : Nat)
    (c : VehicleChecklist) (s' : Store) (c' : VehicleChecklist)
    (hc : find_one s cid = some c)
    (h : update_checklist s cid u n = (s', Except.ok c')) :
    c'.id = c.id ∧ c'.created_at = c.created_at ∧
      c'.is_template = c.is_template := by
  obtain ⟨c0, hf0, hcc, _⟩ := update_checklist_ok_inv h
  rw [hf0] at hc
  obtain rfl : c0 = c := Option.some.inj hc
  subst hcc
  exact ⟨rfl, rfl, rfl⟩

/-- C9 — witness: the frame equations at a concrete update. -/
theorem C9_witness :
    (applySet C3u 9 sampleChecklist).id = sampleChecklist.id ∧
      (applySet C3u 9 sampleChecklist).created_at = sampleChecklist.created_at ∧
      (applySet C3u 9 sampleChecklist).is_template = sampleChecklist.is_template :=
  C9_update_immutable_fields sampleStore "cl-1" C3u 9 sampleChecklist
    (update_checklist sampleStore "cl-1" C3u 9).1
    (applySet C3u 9 sampleChecklist) rfl rfl

/-! ### C10 -/

/-- C10: for an existing checklist, if the clock strictly advanced
since the stored `updated_at`, the written document always differs
from the stored one (its `updated_at` is fresh), so
`modified_count = 0` is impossible and the `PersistenceError` branch
is unreachable: the update succeeds for *every* payload, the empty
one included. -/
theorem C10_update_succeeds
    (s : Store) (cid : String) (u : VehicleChecklistUpdate) (n : Nat)
    (c : VehicleChecklist)
    (hc : find_one s cid = some c) (hn : c.updated_at < n) :
    (update_checklist s cid u n).2 = Except.ok (applySet u n c) := by
  have hne : applySet u n c ≠ c := by
    intro he
    have hupd : (applySet u n c).updated_at = c.updated_at := by rw [he]
    simp only [applySet] at hupd
    omega
  have hcount : (update_one s cid (applySet u n)).2 = 1 := by
    rw [update_one_count (applySet u n) hc, if_neg hne]
  have hrd : find_one (update_one s cid (applySet u n)).1 cid
      = some (applySet u n c) := by
    rw [find_one_update_one (applySet u n) (fun x => rfl) s cid, hc]
    rfl
  simp [update_checklist, hc, hcount, hrd]

/-- C10 — witness: an empty-payload update of the sample checklist
(stored `updated_at = 1`, clock at 9) succeeds. -/
theorem C10_witness :
    sampleChecklist.updated_at < 9 ∧
      (update_checklist sampleStore "cl-1" emptyUpdate 9).2
        = Except.ok (applySet emptyUpdate 9 sampleChecklist) :=
  ⟨by decide,
    C10_update_succeeds sampleStore "cl-1" emptyUpdate 9 sampleChecklist
      rfl (by decide)⟩

/-! ### C4 -/

/-- C4: every successful mutation of a checklist (update, add_item,
toggle_item, add_photo) stamps the operation's fresh timestamp into
`updated_at`; consequently, whenever the clock is non-decreasing
(every fresh timestamp is ≥ the stored `updated_at`), `updated_at`
never decreases. The four mutations are stated as independent
implications, so each one applies on its own — in particular to
checklists on which a toggle could not succeed. -/
theorem C4_updated_at_refreshed
    (s : Store) (cid : String) (c : VehicleChecklist)
    (u : VehicleChecklistUpdate) (sec text itemId fidI : String) (ph : Photo)
    (nU nA nT1 nT2 nP : Nat)
    (sU sA sT sP : Store) (cU cA cT cP : VehicleChecklist)
    (itA : ChecklistItem) (phR : Photo)
    (_hc : find_one s cid = some c) :
    (update_checklist s cid u nU = (sU, Except.ok cU) →
      cU.updated_at = nU ∧ (c.updated_at ≤ nU → c.updated_at ≤ cU.updated_at)) ∧
      (add_checklist_item s cid sec text fidI nA = (sA, Except.ok itA) →
        find_one sA cid = some cA →
        cA.updated_at = nA ∧ (c.updated_at ≤ nA → c.updated_at ≤ cA.updated_at)) ∧
      (toggle_checklist_item s cid sec itemId nT1 nT2 = (sT, Except.ok ()) →
        find_one sT cid = some cT →
        cT.updated_at = nT2 ∧ (c.updated_at ≤ nT2 → c.updated_at ≤ cT.updated_at)) ∧
      (add_photo s cid ph nP = (sP, Except.ok phR) →
        find_one sP cid = some cP →
        cP.updated_at = nP ∧ (c.updated_at ≤ nP → c.updated_at ≤ cP.updated_at)) := by
  refine ⟨?_, ?_, ?_, ?_⟩
  · intro hU
    obtain ⟨c0, hf0, hcc, _⟩ := update_checklist_ok_inv hU
    subst hcc
    exact ⟨rfl, fun h => h⟩
  · intro hA hA2
    obtain ⟨_, _, c0, hf0, hsA⟩ := add_item_inv hA
    have hrd : find_one sA cid
        = some (setUpdatedAt nA (pushSection sec ⟨fidI, text, false, none⟩ c0)) := by
      rw [hsA, find_one_update_one _
        (fun x => by rw [setUpdatedAt_id, pushSection_id]) s cid, hf0]
      rfl
    rw [hrd] at hA2
    obtain rfl : setUpdatedAt nA (pushSection sec ⟨fidI, text, false, none⟩ c0) = cA :=
      Option.some.inj hA2
    exact ⟨rfl, fun h => h⟩
  · intro hT hT2
    obtain ⟨hsec, c0, items, hf0, ht, hsT⟩ := toggle_inv hT
    have hrd : find_one sT cid
        = some (setUpdatedAt nT2 (setSection sec items c0)) := by
      rw [hsT, find_one_update_one _
        (fun x => by rw [setUpdatedAt_id, setSection_id]) s cid, hf0]
      rfl
    rw [hrd] at hT2
    obtain rfl : setUpdatedAt nT2 (setSection sec items c0) = cT :=
      Option.some.inj hT2
    exact ⟨rfl, fun h => h⟩
  · intro hP hP2
    obtain ⟨_, c0, hf0, hsP⟩ := add_photo_inv hP
    have hrd : find_one sP cid
        = some (setUpdatedAt nP { c0 with photos := c0.photos ++ [ph] }) := by
      rw [hsP, find_one_update_one
        (fun c2 => setUpdatedAt nP { c2 with photos := c2.photos ++ [ph] })
        (fun x => rfl) s cid, hf0]
      rfl
    rw [hrd] at hP2
    obtain rfl : setUpdatedAt nP { c0 with photos := c0.photos ++ [ph] } = cP :=
      Option.some.inj hP2
    exact ⟨rfl, fun h => h⟩

/-- C4 — witness: all four mutations on the sample store, with
concrete clock values 4,5,6,7,8 and the resulting documents. -/
theorem C4_witness :
    ((applySet emptyUpdate 4 sampleChecklist).updated_at = 4 ∧
        (sampleChecklist.updated_at ≤ 4 →
          sampleChecklist.updated_at ≤ (applySet emptyUpdate 4 sampleChecklist).updated_at)) ∧
      ((setUpdatedAt 5 (pushSection "tasks" ⟨"i9", "New task", false, none⟩
            sampleChecklist)).updated_at = 5 ∧
        (sampleChecklist.updated_at ≤ 5 →
          sampleChecklist.updated_at ≤ (setUpdatedAt 5 (pushSection "tasks"
            ⟨"i9", "New task", false, none⟩ sampleChecklist)).updated_at)) ∧
      ((setUpdatedAt 7 (setSection "tasks" [flipItem 6 doneItem]
            sampleChecklist)).updated_at = 7 ∧
        (sampleChecklist.updated_at ≤ 7 →
          sampleChecklist.updated_at ≤ (setUpdatedAt 7 (setSection "tasks"
            [flipItem 6 doneItem] sampleChecklist)).updated_at)) ∧
      ((setUpdatedAt 8 { sampleChecklist with
            photos := sampleChecklist.photos ++ [samplePhoto] }).updated_at = 8 ∧
        (sampleChecklist.updated_at ≤ 8 →
          sampleChecklist.updated_at ≤ (setUpdatedAt 8 { sampleChecklist with
            photos := sampleChecklist.photos ++ [samplePhoto] }).updated_at)) := by
  have h := C4_updated_at_refreshed sampleStore "cl-1" sampleChecklist emptyUpdate
    "tasks" "New task" "i1" "i9" samplePhoto 4 5 6 7 8
    (update_checklist sampleStore "cl-1" emptyUpdate 4).1
    (add_checklist_item sampleStore "cl-1" "tasks" "New task" "i9" 5).1
    (toggle_checklist_item sampleStore "cl-1" "tasks" "i1" 6 7).1
    (add_photo sampleStore "cl-1" samplePhoto 8).1
    (applySet emptyUpdate 4 sampleChecklist)
    (setUpdatedAt 5 (pushSection "tasks" ⟨"i9", "New task", false, none⟩ sampleChecklist))
    (setUpdatedAt 7 (setSection "tasks" [flipItem 6 doneItem] sampleChecklist))
    (setUpdatedAt 8 { sampleChecklist with
      photos := sampleChecklist.photos ++ [samplePhoto] })
    ⟨"i9", "New task", false, none⟩ samplePhoto rfl
  exact ⟨h.1 rfl, h.2.1 rfl rfl, h.2.2.1 rfl rfl, h.2.2.2 rfl rfl⟩

/-! ### C5 -/

theorem setSection_title (sec : String) (l : List ChecklistItem)
    (c : VehicleChecklist) : (setSection sec l c).title = c.title := by
  unfold setSection
  split_ifs <;> rfl

theorem setSection_vehicle_info (sec : String) (l : List ChecklistItem)
    (c : VehicleChecklist) : (setSection sec l c).vehicle_info = c.vehicle_info := by
  unfold setSection
  split_ifs <;> rfl

theorem setSection_engine_info (sec : String) (l : List ChecklistItem)
    (c : VehicleChecklist) : (setSection sec l c).engine_info = c.engine_info := by
  unfold setSection
  split_ifs <;> rfl

theorem setSection_photos (sec : String) (l : List ChecklistItem)
    (c : VehicleChecklist) : (setSection sec l c).photos = c.photos := by
  unfold setSection
  split_ifs <;> rfl

theorem setSection_created_at (sec : String) (l : List ChecklistItem)
    (c : VehicleChecklist) : (setSection sec l c).created_at = c.created_at := by
  unfold setSection
  split_ifs <;> rfl

theorem setSection_is_template (sec : String) (l : List ChecklistItem)
    (c : VehicleChecklist) : (setSection sec l c).is_template = c.is_template := by
  unfold setSection
  split_ifs <;> rfl

/-- Every valid section's list is contained in the concatenation of
the four item lists. -/
theorem getSection_subset (c : VehicleChecklist) (sec : String) :
    getSection c sec ⊆
      c.tasks ++ c.parts_to_install ++ c.maintenance ++ c.research_items := by
  unfold getSection
  split_ifs <;> intro x hx <;> simp [List.mem_append] <;> tauto

/-- C5: for a valid section of an existing checklist, `add_item`
returns a new item assembled from the fresh id and the given text
with `completed = false`, `completed_at = null`; the stored document
gains exactly that item at the end of the named list, every other
list and every other field except `updated_at` is unchanged,
`updated_at` becomes the fresh timestamp, and the new item's id
differs from every pre-existing item id of that section. -/
theorem C5_add_item (s : Store) (cid sec text fid : String) (n : Nat)
    (c c₂ : VehicleChecklist)
    (hsec : sec ∈ validSections)
    (hc : find_one s cid = some c)
    (hfresh : fid ∉ List.map ChecklistItem.id
      (c.tasks ++ c.parts_to_install ++ c.maintenance ++ c.research_items))
    (h2 : find_one (add_checklist_item s cid sec text fid n).1 cid = some c₂) :
    (add_checklist_item s cid sec text fid n).2
        = Except.ok ⟨fid, text, false, none⟩ ∧
      getSection c₂ sec = getSection c sec ++ [⟨fid, text, false, none⟩] ∧
      (sec = "tasks" → c₂.parts_to_install = c.parts_to_install ∧
        c₂.maintenance = c.maintenance ∧ c₂.research_items = c.research_items) ∧
      (sec = "parts_to_install" → c₂.tasks = c.tasks ∧
        c₂.maintenance = c.maintenance ∧ c₂.research_items = c.research_items) ∧
      (sec = "maintenance" → c₂.tasks = c.tasks ∧
        c₂.parts_to_install = c.parts_to_install ∧
        c₂.research_items = c.research_items) ∧
      (sec = "research_items" → c₂.tasks = c.tasks ∧
        c₂.parts_to_install = c.parts_to_install ∧
        c₂.maintenance = c.maintenance) ∧
      c₂.id = c.id ∧ c₂.title = c.title ∧
      c₂.vehicle_info = c.vehicle_info ∧ c₂.engine_info = c.engine_info ∧
      c₂.photos = c.photos ∧ c₂.created_at = c.created_at ∧
      c₂.is_template = c.is_template ∧ c₂.updated_at = n ∧
      fid ∉ List.map ChecklistItem.id (getSection c sec) := by
  have hne : setUpdatedAt n (pushSection sec ⟨fid, text, false, none⟩ c) ≠ c := by
    intro h
    have h3 := congrArg (fun x => getSection x sec) h
    simp only [getSection_setUpdatedAt] at h3
    rw [pushSection, getSection_setSection_self sec hsec] at h3
    have h4 := congrArg List.length h3
    simp at h4
  have hcount : (update_one s cid
      (fun c2 => setUpdatedAt n (pushSection sec ⟨fid, text, false, none⟩ c2))).2 = 1 := by
    rw [update_one_count _ hc, if_neg hne]
  have hstore : (add_checklist_item s cid sec text fid n).1
      = (update_one s cid
        (fun c2 => setUpdatedAt n (pushSection sec ⟨fid, text, false, none⟩ c2))).1 := by
    simp [add_checklist_item, if_pos hsec, hc, hcount]
  have hrd : find_one (update_one s cid
      (fun c2 => setUpdatedAt n (pushSection sec ⟨fid, text, false, none⟩ c2))).1 cid
      = some (setUpdatedAt n (pushSection sec ⟨fid, text, false, none⟩ c)) := by
    rw [find_one_update_one _
      (fun x => by rw [setUpdatedAt_id, pushSection_id]) s cid, hc]
    rfl
  rw [hstore, hrd] at h2
  obtain rfl : setUpdatedAt n (pushSection sec ⟨fid, text, false, none⟩ c) = c₂ :=
    Option.some.inj h2
  refine ⟨?_, ?_, ?_, ?_, ?_, ?_, ?_, ?_, ?_, ?_, ?_, ?_, ?_, ?_, ?_⟩
  · simp [add_checklist_item, if_pos hsec, hc, hcount]
  · rw [getSection_setUpdatedAt, pushSection, getSection_setSection_self sec hsec]
  · rintro rfl
    exact ⟨rfl, rfl, rfl⟩
  · rintro rfl
    exact ⟨rfl, rfl, rfl⟩
  · rintro rfl
    exact ⟨rfl, rfl, rfl⟩
  · rintro rfl
    exact ⟨rfl, rfl, rfl⟩
  · rw [setUpdatedAt_id, pushSection_id]
  · rw [show (setUpdatedAt n (pushSection sec ⟨fid, text, false, none⟩ c)).title
      = (pushSection sec ⟨fid, text, false, none⟩ c).title from rfl,
      pushSection, setSection_title]
  · rw [show (setUpdatedAt n (pushSection sec ⟨fid, text, false, none⟩ c)).vehicle_info
      = (pushSection sec ⟨fid, text, false, none⟩ c).vehicle_info from rfl,
      pushSection, setSection_vehicle_info]
  · rw [show (setUpdatedAt n (pushSection sec ⟨fid, text, false, none⟩ c)).engine_info
      = (pushSection sec ⟨fid, text, false, none⟩ c).engine_info from rfl,
      pushSection, setSection_engine_info]
  · rw [show (setUpdatedAt n (pushSection sec ⟨fid, text, false, none⟩ c)).photos
      = (pushSection sec ⟨fid, text, false, none⟩ c).photos from rfl,
      pushSection, setSection_photos]
  · rw [show (setUpdatedAt n (pushSection sec ⟨fid, text, false, none⟩ c)).created_at
      = (pushSection sec ⟨fid, text, false, none⟩ c).created_at from rfl,
      pushSection, setSection_created_at]
  · rw [show (setUpdatedAt n (pushSection sec ⟨fid, text, false, none⟩ c)).is_template
      = (pushSection sec ⟨fid, text, false, none⟩ c).is_template from rfl,
      pushSection, setSection_is_template]
  · rfl
  · intro hmem
    apply hfresh
    obtain ⟨x, hxmem, hxid⟩ := List.mem_map.mp hmem
    exact List.mem_map.mpr ⟨x, getSection_subset c sec hxmem, hxid⟩

def C5item : ChecklistItem :=
  { id := "i9", text := "New task", completed := false, completed_at := none }

def C5res : VehicleChecklist := setUpdatedAt 5 (pushSection "tasks" C5item sampleChecklist)

/-- C5 — witness: adding "New task" to the `tasks` section of the
sample checklist. -/
theorem C5_witness :
    (add_checklist_item sampleStore "cl-1" "tasks" "New task" "i9" 5).2
        = Except.ok ⟨"i9", "New task", false, none⟩ ∧
      getSection C5res "tasks"
        = getSection sampleChecklist "tasks" ++ [⟨"i9", "New task", false, none⟩] ∧
      ("tasks" = "tasks" → C5res.parts_to_install = sampleChecklist.parts_to_install ∧
        C5res.maintenance = sampleChecklist.maintenance ∧
        C5res.research_items = sampleChecklist.research_items) ∧
      ("tasks" = "parts_to_install" → C5res.tasks = sampleChecklist.tasks ∧
        C5res.maintenance = sampleChecklist.maintenance ∧
        C5res.research_items = sampleChecklist.research_items) ∧
      ("tasks" = "maintenance" → C5res.tasks = sampleChecklist.tasks ∧
        C5res.parts_to_install = sampleChecklist.parts_to_install ∧
        C5res.research_items = sampleChecklist.research_items) ∧
      ("tasks" = "research_items" → C5res.tasks = sampleChecklist.tasks ∧
        C5res.parts_to_install = sampleChecklist.parts_to_install ∧
        C5res.maintenance = sampleChecklist.maintenance) ∧
      C5res.id = sampleChecklist.id ∧ C5res.title = sampleChecklist.title ∧
      C5res.vehicle_info = sampleChecklist.vehicle_info ∧
      C5res.engine_info = sampleChecklist.engine_info ∧
      C5res.photos = sampleChecklist.photos ∧
      C5res.created_at = sampleChecklist.created_at ∧
      C5res.is_template = sampleChecklist.is_template ∧
      C5res.updated_at = 5 ∧
      "i9" ∉ List.map ChecklistItem.id (getSection sampleChecklist "tasks") :=
  C5_add_item sampleStore "cl-1" "tasks" "New task" "i9" 5 sampleChecklist C5res
    (by decide) rfl (by decide) rfl

/-! ### C6 -/

/-- C6: `update` fails with `NotFound` exactly when no checklist with
the id exists; for an existing id it fails with `PersistenceError`
exactly when the store write reports zero documents modified; in
every other case it succeeds and returns the post-update document
re-read from the store. -/
theorem C6_update_error_contract (s : Store) (cid : String)
    (u : VehicleChecklistUpdate) (n : Nat) :
    ((update_checklist s cid u n).2 = Except.error ApiError.notFound ↔
      find_one s cid = none) ∧
      ((update_checklist s cid u n).2 = Except.error ApiError.persistence ↔
        (find_one s cid ≠ none ∧ (update_one s cid (applySet u n)).2 = 0)) ∧
      (∀ c, find_one s cid = some c → (update_one s cid (applySet u n)).2 ≠ 0 →
        update_checklist s cid u n
            = ((update_one s cid (applySet u n)).1, Except.ok (applySet u n c)) ∧
          find_one (update_checklist s cid u n).1 cid = some (applySet u n c)) := by
  cases hf : find_one s cid with
  | none =>
    refine ⟨?_, ?_, ?_⟩
    · simp [update_checklist, hf]
    · simp [update_checklist, hf]
    · intro c hcon
      simp [hf] at hcon
  | some c0 =>
    have hrd : find_one (update_one s cid (applySet u n)).1 cid
        = some (applySet u n c0) := by
      rw [find_one_update_one (applySet u n) (fun x => rfl) s cid, hf]
      rfl
    by_cases hz : (update_one s cid (applySet u n)).2 = 0
    · refine ⟨?_, ?_, ?_⟩
      · simp [update_checklist, hf, hz]
      · simp [update_checklist, hf, hz]
      · intro c hc hnz
        exact absurd hz hnz
    · refine ⟨?_, ?_, ?_⟩
      · simp [update_checklist, hf, hz, hrd]
      · simp [update_checklist, hf, hz, hrd]
      · intro c hc hnz
        obtain rfl : c0 = c := Option.some.inj hc
        refine ⟨?_, ?_⟩
        · simp [update_checklist, hf, hz, hrd]
        · simp [update_checklist, hf, hz, hrd]

/-- C6 — witness: the error contract instantiated on the sample
store. -/
theorem C6_witness :
    ((update_checklist sampleStore "cl-1" emptyUpdate 9).2
          = Except.error ApiError.notFound ↔
        find_one sampleStore "cl-1" = none) ∧
      ((update_checklist sampleStore "cl-1" emptyUpdate 9).2
            = Except.error ApiError.persistence ↔
          (find_one sampleStore "cl-1" ≠ none ∧
            (update_one sampleStore "cl-1" (applySet emptyUpdate 9)).2 = 0)) ∧
      (∀ c, find_one sampleStore "cl-1" = some c →
        (update_one sampleStore "cl-1" (applySet emptyUpdate 9)).2 ≠ 0 →
        update_checklist sampleStore "cl-1" emptyUpdate 9
            = ((update_one sampleStore "cl-1" (applySet emptyUpdate 9)).1,
                Except.ok (applySet emptyUpdate 9 c)) ∧
          find_one (update_checklist sampleStore "cl-1" emptyUpdate 9).1 "cl-1"
            = some (applySet emptyUpdate 9 c)) :=
  C6_update_error_contract sampleStore "cl-1" emptyUpdate 9

/-! ### C7 -/

/-- C7: for any section name outside the closed set, `add_item` and
`toggle_item` fail with `InvalidArgument` and return the store
unmodified (the validation precedes every write). -/
theorem C7_invalid_section (s : Store) (cid sec text itemId fid : String)
    (n nI nD : Nat) (hsec : sec ∉ validSections) :
    add_checklist_item s cid sec text fid n
        = (s, Except.error ApiError.invalidArgument) ∧
      toggle_checklist_item s cid sec itemId nI nD
        = (s, Except.error ApiError.invalidArgument) := by
  constructor
  · simp [add_checklist_item, hsec]
  · simp [toggle_checklist_item, hsec]

/-- C7 — witness: the section "bogus" is rejected and the sample
store is returned unchanged by both operations. -/
theorem C7_witness :
    "bogus" ∉ validSections ∧
      (add_checklist_item sampleStore "cl-1" "bogus" "x" "i9" 3
          = (sampleStore, Except.error ApiError.invalidArgument) ∧
        toggle_checklist_item sampleStore "cl-1" "bogus" "i1" 4 5
          = (sampleStore, Except.error ApiError.invalidArgument)) :=
  ⟨by decide,
    C7_invalid_section sampleStore "cl-1" "bogus" "x" "i1" "i9" 3 4 5 (by decide)⟩

/-! ### C8 -/

/-- C8: after a successful `create`, reading back the returned
checklist's id yields a document equal (in every field) to the one
`create` returned — provided the generated id is fresh for the store,
as uuid generation is meant to guarantee. -/
theorem C8_create_then_get (s : Store) (d : VehicleChecklistCreate)
    (fid : String) (n : Nat) (s' : Store) (c : VehicleChecklist)
    (hfresh : fid ∉ List.map VehicleChecklist.id s)
    (h : create_checklist s d fid n = (s', Except.ok c)) :
    get_checklist s' c.id = Except.ok c := by
  cases hd : d.is_template with
  | none => simp [create_checklist, hd] at h
  | some b =>
    simp only [create_checklist, hd] at h
    have h1 := congrArg Prod.fst h
    have h2 := congrArg Prod.snd h
    simp only at h1 h2
    obtain rfl :
        (⟨fid, d.title, d.vehicle_info, d.engine_info,
          [], [], [], [], [], n, n, b⟩ : VehicleChecklist) = c :=
      Except.ok.inj h2
    subst h1
    have hnone : find_one s fid = none := by
      rw [find_one]
      refine List.find?_eq_none.mpr ?_
      intro x hx hbeq
      have hxid : x.id = fid := by simpa using hbeq
      exact hfresh (List.mem_map.mpr ⟨x, hx, hxid⟩)
    have hfound : find_one
        (s ++ [(⟨fid, d.title, d.vehicle_info, d.engine_info,
          [], [], [], [], [], n, n, b⟩ : VehicleChecklist)]) fid
        = some (⟨fid, d.title, d.vehicle_info, d.engine_info,
          [], [], [], [], [], n, n, b⟩ : VehicleChecklist) := by
      rw [find_one, List.find?_append]
      rw [find_one] at hnone
      rw [hnone]
      simp [List.find?]
    simp [get_checklist, hfound]

def C8doc : VehicleChecklist :=
  { id := "cl-9", title := "1970 Mustang", vehicle_info := sampleVehicle
    engine_info := sampleEngine, tasks := [], parts_to_install := []
    maintenance := [], research_items := [], photos := [], created_at := 3
    updated_at := 3, is_template := false }

/-- C8 — witness: creating on the sample store with the fresh id
"cl-9" and reading the result back. -/
theorem C8_witness :
    get_checklist (create_checklist sampleStore sampleCreate "cl-9" 3).1 C8doc.id
      = Except.ok C8doc :=
  C8_create_then_get sampleStore sampleCreate "cl-9" 3
    (create_checklist sampleStore sampleCreate "cl-9" 3).1 C8doc
    (by decide) rfl

end Armoury
